import Mathlib

/-!
Verification development for `msync.py` (pymsync): a shallow embedding of the
program's roster construction, path normalization, worker loop and round
scheduler, with theorems settling the specification's claims about them.

Strings are embedded as `List Char`; Python string methods used by the program
(`strip`, `split`, `endswith`, slicing) and the `os.path` functions it calls
are modelled on that representation.
-/

namespace Msync

/-- The whitespace characters removed by Python `str.strip()` with no
argument. -/
def isPySpace (c : Char) : Bool :=
  c = ' ' || c = '\t' || c = '\n' || c = '\r' || c = '\x0b' || c = '\x0c'

/-- Python `s.strip()`: remove leading and trailing whitespace. -/
def pyStrip (s : List Char) : List Char :=
  ((s.dropWhile isPySpace).reverse.dropWhile isPySpace).reverse

/-- Python `s.split(sep)` for a one-character separator: split on every
occurrence, keeping empty pieces (`"".split(",") == [""]`). -/
def splitOnChar (sep : Char) : List Char → List (List Char)
  | [] => [[]]
  | c :: rest =>
    match splitOnChar sep rest with
    | [] => [[]]
    | piece :: pieces =>
      if c = sep then [] :: piece :: pieces else (c :: piece) :: pieces

/-- Python `s.endswith(suffix)`. -/
def listEndsWith (s suffix : List Char) : Bool :=
  suffix.isSuffixOf s

/-- `posixpath.normpath` restricted to paths with a single leading `/`
(the only inputs the program's claims involve): split into components,
drop empty and `.` components, let `..` pop the previous component
(or vanish at the root), and rejoin under the leading slash. -/
def pyNormpathAbs (p : List Char) : List Char :=
  let comps := splitOnChar '/' p
  let newComps := comps.foldl (fun acc comp =>
    if comp = [] then acc
    else if comp = ['.'] then acc
    else if comp = ['.', '.'] then acc.dropLast
    else acc ++ [comp]) ([] : List (List Char))
  '/' :: List.intercalate ['/'] newComps

/-- `os.path.abspath` for inputs that are already absolute paths (with a
single leading slash): `abspath(p) = normpath(join(cwd, p)) = normpath(p)`
since `join` discards `cwd` when `p` is absolute. The current working
directory is never consulted. -/
def pyAbspath (p : List Char) : List Char :=
  pyNormpathAbs p

/-- The first component of `os.path.split(p)` (posix): everything up to and
including the last `/`, with trailing slashes stripped unless the head
consists only of slashes. -/
def ospathSplitHead (p : List Char) : List Char :=
  let tailLen := (p.reverse.takeWhile (fun c => decide (c ≠ '/'))).length
  let head := p.take (p.length - tailLen)
  if head = [] then head
  else if head.all (fun c => decide (c = '/')) then head
  else (head.reverse.dropWhile (fun c => decide (c = '/'))).reverse

/-- `RSYNC_EXE = "/usr/bin/rsync"` (msync.py line 46). -/
def RSYNC_EXE : List Char := "/usr/bin/rsync".data

/-- `SSH_EXE = "/usr/bin/ssh"` (msync.py line 47). -/
def SSH_EXE : List Char := "/usr/bin/ssh".data

/-- `__main__` destination-list construction (msync.py lines 176-179):
start from `[hostname]` and, for each comma-separated piece `d` of the
`-d` argument, append `d.strip()` whenever the (unstripped) `d` differs
from the hostname. -/
def buildDestinations (hostname destArg : List Char) : List (List Char) :=
  (splitOnChar ',' destArg).foldl
    (fun acc d => if d = hostname then acc else acc ++ [pyStrip d])
    [hostname]

/-- Source/destination path computation of `__main__` (msync.py lines
193-207): `sourcePath = os.path.abspath(args.path.strip())`; a source ending
in `/*` syncs the directory named by dropping the `*`; a source ending in `/`
keeps the slash on the destination and drops it from the source; otherwise a
directory source is placed into its parent (`os.path.split(...)[0]`) and a
file source uses the full file path. `checkDir` / the final `else` call
`die`, modelled as `Except.error` carrying the logged message. Returns
`(sourcePath, destPath)` on success. The filesystem tests `os.path.isdir` /
`os.path.isfile` are parameters. -/
def computeDest (isDir isFile : List Char → Bool) (rawPath : List Char) :
    Except (List Char) (List Char × List Char) :=
  let sourcePath := pyAbspath (pyStrip rawPath)
  if listEndsWith sourcePath ['/', '*'] then
    let destPath := sourcePath.dropLast
    if isDir destPath then Except.ok (sourcePath, destPath)
    else Except.error ("%d is not a directory".data)
  else if listEndsWith sourcePath ['/'] then
    let destPath := sourcePath
    let sourcePath2 := sourcePath.dropLast
    if isDir sourcePath2 then Except.ok (sourcePath2, destPath)
    else Except.error ("%d is not a directory".data)
  else if isDir sourcePath then
    Except.ok (sourcePath, ospathSplitHead sourcePath)
  else if isFile sourcePath then
    Except.ok (sourcePath, sourcePath)
  else Except.error ("source path is not a file or directory".data)

/-- The rsync invocation built for one pair (msync.py line 239):
`"%s %s %s -av %s %s:%s" % (SSH_EXE, destinations[h], RSYNC_EXE, sourcePath,
hostToAdd, destPath)`. -/
def buildCommand (srcHost destHost sourcePath destPath : List Char) : List Char :=
  SSH_EXE ++ " ".data ++ srcHost ++ " ".data ++ RSYNC_EXE ++ " -av ".data ++
    sourcePath ++ " ".data ++ destHost ++ ":".data ++ destPath

/-- Scheduler state of `__main__`: `hostsCopiedTo` (starts at 1), the round
counter `i` (starts at 0) and `copies` (starts at 1; recomputed as `2 ** i`
after each round, msync.py lines 187-190 and 247-248). -/
structure SchedState where
  hostsCopiedTo : Nat
  i : Nat
  copies : Nat
deriving DecidableEq

/-- One round's planning (msync.py lines 221-239): `remaining = hostTotal -
hostsCopiedTo`; `copies` is clamped to `remaining` when larger; then the
loop `for h in range(0, remaining)` schedules the pair
`(destinations[h], destinations[h + copies])` for each `h`, breaking at the
first `h` with `h + copies >= hostTotal` (hence `takeWhile`). Returns the
clamped `copies` and the list of scheduled index pairs. (Process creation
for `h < processTotal` is I/O and carries no scheduling state.) -/
def planRound (hostTotal hostsCopiedTo copies : Nat) : Nat × List (Nat × Nat) :=
  let remaining := hostTotal - hostsCopiedTo
  let copies2 := if remaining < copies then remaining else copies
  let hs := (List.range remaining).takeWhile (fun h => decide (h + copies2 < hostTotal))
  (copies2, hs.map (fun h => (h, h + copies2)))

/-- One full iteration of the `while` loop: plan the round, add one to
`hostsCopiedTo` per scheduled pair (line 237), then `i += 1; copies = 2**i`
(lines 247-248). -/
def roundStep (hostTotal : Nat) (s : SchedState) : SchedState × List (Nat × Nat) :=
  let pr := planRound hostTotal s.hostsCopiedTo s.copies
  (⟨s.hostsCopiedTo + pr.2.length, s.i + 1, 2 ^ (s.i + 1)⟩, pr.2)

/-- The `while hostsCopiedTo < hostTotal` loop (msync.py lines 214-248),
fuelled; returns the list of rounds, each round the list of scheduled index
pairs. Each executed round increases `hostsCopiedTo` by at least one (proved
below), so fuel `hostTotal` is always sufficient. -/
def schedLoop (hostTotal : Nat) : Nat → SchedState → List (List (Nat × Nat))
  | 0, _ => []
  | fuel + 1, s =>
    if s.hostsCopiedTo < hostTotal then
      (roundStep hostTotal s).2 :: schedLoop hostTotal fuel (roundStep hostTotal s).1
    else []

/-- The rounds executed by `__main__` for a roster of `hostTotal` hosts,
from the initial state `hostsCopiedTo = 1, i = 0, copies = 1`. -/
def msyncRounds (hostTotal : Nat) : List (List (Nat × Nat)) :=
  schedLoop hostTotal hostTotal ⟨1, 0, 1⟩

/-- The value of `hostsCopiedTo` after the first `k` executed rounds:
1 plus one increment per pair scheduled so far. -/
def cAfter (hostTotal k : Nat) : Nat :=
  1 + (((msyncRounds hostTotal).take k).map List.length).sum

/-- A Python exception escaping `CommandProcess.run`, or a blocked
`taskQueue.get()` on a queue that will never receive another entry. -/
inductive PyErr where
  | attributeError : List Char → PyErr
  | blocked : PyErr
deriving DecidableEq

/-- Final state of a worker that exited normally: its `__ok` flag and the
number of `task_done()` acknowledgements it issued. -/
structure WorkerResult where
  ok : Bool
  acked : Nat
deriving DecidableEq

/-- `CommandProcess.run` (msync.py lines 135-153) over a queue embedded as a
list: `None` is the poison pill (acknowledge and break, leaving later
entries unconsumed); a task is run only while `__ok` holds, and a nonzero
return code reaches `logging.error(... % self.__command)` — but
`CommandProcess.__init__` assigns only `__taskQueue` and `__ok`, so the
(name-mangled) attribute `_CommandProcess__command` does not exist and the
lookup raises `AttributeError` before `__ok` is ever set to `False`. Tasks
are identified by their command string; `result` gives `runCommand`'s
return code for each command. -/
def commandProcessRun (result : List Char → Int) :
    List (Option (List Char)) → Bool → Nat → Except PyErr WorkerResult
  | [], _, _ => Except.error PyErr.blocked
  | none :: _, ok, acked => Except.ok ⟨ok, acked + 1⟩
  | some cmd :: rest, ok, acked =>
    if ok then
      if result cmd ≠ 0 then
        Except.error (PyErr.attributeError ("_CommandProcess__command".data))
      else commandProcessRun result rest ok (acked + 1)
    else commandProcessRun result rest ok (acked + 1)

/-- The `__main__` driver (msync.py lines 169-250): `checkExe` on rsync and
ssh, roster construction, path computation, then the round loop. `die` is
`sys.exit(1)`, so every failed startup check yields exit code 1 with no
rounds executed. After startup the loop runs to completion and falls
through to `logging.info("done")`: the parent never reads any child
process's `__ok` flag (it lives in the child's memory) nor its `exitcode`
(`p.join()`'s result is discarded), so the exit code is 0 regardless of the
outcome of any copy. Returns `(exit code, rounds executed)`; `pathExists`,
`isDir`, `isFile` embed `os.path.exists/isdir/isfile` and `hostname`
embeds `os.uname()[1]`. -/
def msyncMain (pathExists isDir isFile : List Char → Bool)
    (hostname destArg rawPath : List Char) : Nat × List (List (Nat × Nat)) :=
  if pathExists RSYNC_EXE = false then (1, [])
  else if pathExists SSH_EXE = false then (1, [])
  else
    let destinations := buildDestinations hostname destArg
    match computeDest isDir isFile rawPath with
    | Except.error _ => (1, [])
    | Except.ok _ => (0, msyncRounds destinations.length)

/-- The round count the specification predicts for a roster of `n` hosts:
the least `k` with `n ≤ 2 ^ k`, i.e. `ceil(log2(n))` for `n ≥ 1`. Stated
from the spec for comparison with the code's behaviour. -/
def ceilLog2 (n : Nat) : Nat :=
  (((List.range (n + 1)).find? (fun k => decide (n ≤ 2 ^ k))).getD 0)

end Msync

namespace Msync

example : msyncRounds 1 = [] := by decide
example : msyncRounds 2 = [[(0, 1)]] := by decide
example : msyncRounds 3 = [[(0, 1), (1, 2)]] := by decide
example : msyncRounds 5 = [[(0, 1), (1, 2), (2, 3), (3, 4)]] := by decide
example : pyAbspath ("/a/b/".data) = "/a/b".data := by decide
example : pyAbspath ("/a/b/*".data) = "/a/b/*".data := by decide
example : ospathSplitHead ("/a/b".data) = "/a".data := by decide
example : ospathSplitHead ("/a".data) = "/".data := by decide
example : buildDestinations ("src".data) (" src".data) = ["src".data, "src".data] := by decide
example : ceilLog2 1 = 0 ∧ ceilLog2 2 = 1 ∧ ceilLog2 3 = 2 ∧ ceilLog2 5 = 3 := by decide
example :
    commandProcessRun (fun c => if c = "f".data then 1 else 0)
      [some ("f".data), some ("g".data), none] true 0
      = Except.error (PyErr.attributeError ("_CommandProcess__command".data)) := by rfl
example :
    msyncMain (fun _ => true) (fun q => decide (q = "/a".data)) (fun _ => false)
      ("src".data) ([]) ("/a".data) = (0, [[(0, 1)]]) := by decide
example :
    computeDest (fun p => decide (p = "/a/b".data)) (fun _ => false) ("/a/b/".data)
      = Except.ok ("/a/b".data, "/a".data) := by rfl

/-- Unfolding equation for `schedLoop` at positive fuel. -/
theorem schedLoop_succ (hostTotal fuel : Nat) (s : SchedState) :
    schedLoop hostTotal (fuel + 1) s =
      if s.hostsCopiedTo < hostTotal then
        (roundStep hostTotal s).2 :: schedLoop hostTotal fuel (roundStep hostTotal s).1
      else [] := rfl

/-- Once `hostsCopiedTo` has reached `hostTotal`, the loop body never runs. -/
theorem schedLoop_stop (hostTotal fuel : Nat) (s : SchedState)
    (h : ¬ s.hostsCopiedTo < hostTotal) : schedLoop hostTotal fuel s = [] := by
  cases fuel <;> simp [schedLoop, h]

/-- The first round from the initial state for `m + 2` hosts: `copies = 1`
is not clamped, the break condition `h + 1 >= m + 2` never fires for
`h < m + 1`, so every `h` in `range (m + 1)` schedules the pair
`(h, h + 1)`. -/
theorem planRound_first (m : Nat) :
    planRound (m + 2) 1 1 = (1, (List.range (m + 1)).map (fun h => (h, h + 1))) := by
  have hrem : m + 2 - 1 = m + 1 := by omega
  have hif : ¬ (m + 1 < 1) := by omega
  have htw : (List.range (m + 1)).takeWhile (fun h => decide (h + 1 < m + 2))
      = List.range (m + 1) := by
    refine List.takeWhile_eq_self_iff.mpr ?_
    intro x hx
    simp only [List.mem_range] at hx
    simp only [decide_eq_true_eq]
    omega
  simp only [planRound, hrem, if_neg hif, htw]

/-- For every roster of `m + 2` hosts the loop executes exactly one round,
scheduling the whole chain `(0,1), (1,2), …, (m, m+1)` in it. -/
theorem msyncRounds_chain (m : Nat) :
    msyncRounds (m + 2) = [(List.range (m + 1)).map (fun h => (h, h + 1))] := by
  have hstart : msyncRounds (m + 2) = schedLoop (m + 2) ((m + 1) + 1) ⟨1, 0, 1⟩ := rfl
  have hsnd : (planRound (m + 2) 1 1).2 = (List.range (m + 1)).map (fun h => (h, h + 1)) := by
    rw [planRound_first]
  have hstep : roundStep (m + 2) ⟨1, 0, 1⟩
      = (⟨m + 2, 1, 2⟩, (List.range (m + 1)).map (fun h => (h, h + 1))) := by
    simp only [roundStep]
    rw [hsnd]
    simp [SchedState.mk.injEq, Prod.mk.injEq]
    all_goals omega
  have hdone : ¬ (SchedState.mk (m + 2) 1 2).hostsCopiedTo < m + 2 := by
    show ¬ (m + 2 < m + 2); omega
  rw [hstart, schedLoop_succ, if_pos (by show (1 : Nat) < m + 2; omega), hstep,
    schedLoop_stop _ _ _ hdone]

/-- Every pair planned in one round has its destination index below the
roster length, because of the `break` at `h + copies >= hostTotal`. -/
theorem planRound_pairs_lt (hostTotal c cp : Nat) :
    ∀ p ∈ (planRound hostTotal c cp).2, p.2 < hostTotal := by
  intro p hp
  simp only [planRound, List.mem_map] at hp
  obtain ⟨h, hh, rfl⟩ := hp
  have := List.mem_takeWhile_imp hh
  simpa using this

/-- Bound propagated through the whole fuelled loop. -/
theorem schedLoop_pairs_lt (hostTotal : Nat) :
    ∀ (fuel : Nat) (s : SchedState) (r : List (Nat × Nat)) (p : Nat × Nat),
      r ∈ schedLoop hostTotal fuel s → p ∈ r → p.2 < hostTotal := by
  intro fuel
  induction fuel with
  | zero => intro s r p hr _; simp [schedLoop] at hr
  | succ f ih =>
    intro s r p hr hp
    rw [schedLoop_succ] at hr
    by_cases hc : s.hostsCopiedTo < hostTotal
    · rw [if_pos hc] at hr
      rcases List.mem_cons.mp hr with h1 | h2
      · subst h1
        exact planRound_pairs_lt hostTotal s.hostsCopiedTo s.copies p hp
      · exact ih _ _ _ h2 hp
    · rw [if_neg hc] at hr; simp at hr

/-- The destination-building fold, characterized: appending to the
accumulator filters out raw entries equal to the hostname and strips the
rest, preserving order. -/
theorem buildDest_foldl (hostname : List Char) (l : List (List Char))
    (acc : List (List Char)) :
    l.foldl (fun acc d => if d = hostname then acc else acc ++ [pyStrip d]) acc
      = acc ++ (l.filter (fun d => !decide (d = hostname))).map pyStrip := by
  induction l generalizing acc with
  | nil => simp
  | cons d rest ih =>
    by_cases hd : d = hostname
    · simp [List.foldl_cons, hd, ih]
    · simp [List.foldl_cons, hd, ih]

/-- When the normalized source ends in neither `/*` nor `/` and is neither a
directory nor a file, the path computation reaches the final `die`. -/
theorem computeDest_error (isDir isFile : List Char → Bool) (rawPath : List Char)
    (h1 : listEndsWith (pyAbspath (pyStrip rawPath)) ['/', '*'] = false)
    (h2 : listEndsWith (pyAbspath (pyStrip rawPath)) ['/'] = false)
    (h3 : isDir (pyAbspath (pyStrip rawPath)) = false)
    (h4 : isFile (pyAbspath (pyStrip rawPath)) = false) :
    computeDest isDir isFile rawPath
      = Except.error ("source path is not a file or directory".data) := by
  simp [computeDest, h1, h2, h3, h4]

/-- C1: the claim says a failed pairwise copy makes the process exit nonzero
and stops further rounds; evaluating the code at the failing input (2-host
roster, the single round-1 copy fails) shows the worker running the failing
task raises `AttributeError` (the failure branch reads the unset
`__command` attribute) inside the child process, while the parent never
inspects any worker outcome and exits with status 0 after its round loop. -/
theorem copy_failure_never_aborts :
    msyncMain (fun _ => true) (fun q => decide (q = "/a".data)) (fun _ => false)
      ("src".data) ("dst".data) ("/a".data) = (0, [[(0, 1)]]) ∧
    commandProcessRun
      (fun c => if c = buildCommand ("src".data) ("dst".data) ("/a".data) ("/".data)
        then 1 else 0)
      [some (buildCommand ("src".data) ("dst".data) ("/a".data) ("/".data)), none] true 0
      = Except.error (PyErr.attributeError ("_CommandProcess__command".data)) :=
  ⟨by decide, by rfl⟩

/-- C2: the claim predicts `ceil(log2 N)` rounds; at the failing input
`N = 3` the code executes exactly 1 round (the planning loop ranges over
`remaining`, chaining `(0,1), (1,2)` in the first round) while
`ceil(log2 3) = 2`. -/
theorem round_count_not_log2 :
    (msyncRounds 3).length = 1 ∧ ceilLog2 3 = 2 ∧ (msyncRounds 3).length ≠ ceilLog2 3 := by
  decide

/-- C3: the claim predicts the 5-host schedule (h0→h1), then (h0→h2, h1→h3),
then (h0→h4) over three rounds; the code instead schedules the single round
(h0→h1, h1→h2, h2→h3, h3→h4), after which `hostsCopiedTo = 5`. -/
theorem five_host_schedule :
    msyncRounds 5 = [[(0, 1), (1, 2), (2, 3), (3, 4)]] ∧
    (msyncRounds 5).length = 1 ∧ cAfter 5 (msyncRounds 5).length = 5 := by
  decide

/-- C4: the claim says a worker whose task returns nonzero sets its ok flag
false and keeps draining the queue without crashing; evaluating
`CommandProcess.run` at the failing input (queue = failing task, second
task, sentinel) shows it instead raises `AttributeError` on the unset
`_CommandProcess__command` attribute, before `__ok` is ever cleared, so the
remaining entries are never dequeued or acknowledged. -/
theorem worker_crashes_on_failed_task :
    commandProcessRun (fun c => if c = "failing".data then 1 else 0)
      [some ("failing".data), some ("second".data), none] true 0
      = Except.error (PyErr.attributeError ("_CommandProcess__command".data)) := by
  rfl

/-- C5: the claim says a source path `/a/b/` (an existing directory) yields
destination path `/a/b/`; evaluating the code shows `os.path.abspath`
normalizes the trailing slash away before the `endswith("/")` test, so the
directory branch computes the parent `/a` instead — the contents-sync
branch is unreachable for such inputs. -/
theorem trailing_slash_not_preserved :
    computeDest (fun p => decide (p = "/a/b".data)) (fun _ => false) ("/a/b/".data)
      = Except.ok ("/a/b".data, "/a".data) ∧
    ("/a".data : List Char) ≠ "/a/b/".data :=
  ⟨by rfl, by decide⟩

/-- C6: throughout execution `1 ≤ hostsCopiedTo ≤ N`; while rounds remain
`hostsCopiedTo` is still below `N` and each executed round strictly
increases it; and after the last executed round it equals `N` exactly, which
is when the `while` loop stops. -/
theorem sched_invariants (n : Nat) (hn : 1 ≤ n) :
    (∀ k, 1 ≤ cAfter n k ∧ cAfter n k ≤ n) ∧
    (∀ k, k < (msyncRounds n).length → cAfter n k < n) ∧
    (∀ k, k < (msyncRounds n).length → cAfter n k < cAfter n (k + 1)) ∧
    cAfter n (msyncRounds n).length = n := by
  match n, hn with
  | 1, _ =>
    have h0 : msyncRounds 1 = [] := rfl
    refine ⟨?_, ?_, ?_, ?_⟩
    · intro k; simp [cAfter, h0]
    · intro k hk; simp [h0] at hk
    · intro k hk; simp [h0] at hk
    · simp [cAfter, h0]
  | (m + 2), _ =>
    have hc := msyncRounds_chain m
    have hlen1 : (msyncRounds (m + 2)).length = 1 := by rw [hc]; rfl
    have hafter : ∀ j, cAfter (m + 2) (j + 1) = m + 2 := by
      intro j
      simp [cAfter, hc, List.take_succ_cons]
      omega
    have h0 : cAfter (m + 2) 0 = 1 := by simp [cAfter]
    refine ⟨?_, ?_, ?_, ?_⟩
    · intro k
      cases k with
      | zero => rw [h0]; omega
      | succ j => rw [hafter j]; omega
    · intro k hk
      rw [hlen1] at hk
      have : k = 0 := by omega
      rw [this, h0]; omega
    · intro k hk
      rw [hlen1] at hk
      have : k = 0 := by omega
      rw [this, h0, hafter 0]; omega
    · rw [hlen1, hafter 0]

/-- Witness for C6 at the concrete roster size 5. -/
theorem sched_invariants_witness :
    (1 ≤ cAfter 5 0 ∧ cAfter 5 0 ≤ 5) ∧ cAfter 5 (msyncRounds 5).length = 5 :=
  ⟨(sched_invariants 5 (by decide)).1 0, (sched_invariants 5 (by decide)).2.2.2⟩

/-- C7: no round planned by the code ever contains a pair whose destination
index reaches the roster length: the `break` at `h + copies >= hostTotal`
keeps every `destinations[h + copies]` access in bounds, for every roster
size and round. -/
theorem planned_pairs_in_bounds (hostTotal : Nat) (r : List (Nat × Nat)) (p : Nat × Nat)
    (hr : r ∈ msyncRounds hostTotal) (hp : p ∈ r) : p.2 < hostTotal :=
  schedLoop_pairs_lt hostTotal hostTotal ⟨1, 0, 1⟩ r p hr hp

/-- Witness for C7 at roster size 2, round `[(0,1)]`, pair `(0,1)`. -/
theorem planned_pairs_in_bounds_witness : ((0, 1) : Nat × Nat).2 < 2 :=
  planned_pairs_in_bounds 2 [(0, 1)] (0, 1) (by decide) (by decide)

/-- C8 counterexample: with hostname `src` and destination argument ` src`
(leading space), the dedup test compares the unstripped entry, so the
stripped value `src` — equal to the source host — lands at index 1 of
the roster, contradicting the claim that no index ≥ 1 holds the source. -/
theorem source_dup_after_strip :
    buildDestinations ("src".data) (" src".data) = ["src".data, "src".data] ∧
    (buildDestinations ("src".data) (" src".data))[1]? = some ("src".data) := by
  decide

/-- C8 amended: the roster is the source host at index 0 followed, in
original input order and without mutual deduplication, by the stripped
forms of exactly those raw comma-separated entries whose unstripped text
differs from the source host (so an entry equal to the source only after
stripping is retained). -/
theorem roster_construction (hostname destArg : List Char) :
    buildDestinations hostname destArg
      = hostname ::
          ((splitOnChar ',' destArg).filter (fun d => !decide (d = hostname))).map pyStrip := by
  unfold buildDestinations
  rw [buildDest_foldl]
  rfl

/-- C9 counterexample: an empty `-d` argument is not rejected — startup
succeeds, the roster becomes `[src, ""]` (an empty destination host), one
round of copy work is planned, and the exit status is 0, contradicting the
claim that a malformed/empty destination list is fatal with no work
attempted. -/
theorem empty_destlist_not_fatal :
    msyncMain (fun _ => true) (fun q => decide (q = "/a".data)) (fun _ => false)
      ("src".data) ([]) ("/a".data) = (0, [[(0, 1)]]) ∧
    buildDestinations ("src".data) ([]) = ["src".data, ([] : List Char)] := by
  decide

/-- C9 amended: a missing rsync executable, a missing ssh executable, and a
source path that is neither a file nor a directory are each fatal — the
process exits with status 1 and executes no rounds; the destination list
itself is not validated. -/
theorem startup_checks (pathExists isDir isFile : List Char → Bool)
    (hostname destArg rawPath : List Char) :
    (pathExists RSYNC_EXE = false →
      msyncMain pathExists isDir isFile hostname destArg rawPath = (1, [])) ∧
    (pathExists SSH_EXE = false →
      msyncMain pathExists isDir isFile hostname destArg rawPath = (1, [])) ∧
    (listEndsWith (pyAbspath (pyStrip rawPath)) ['/', '*'] = false →
     listEndsWith (pyAbspath (pyStrip rawPath)) ['/'] = false →
     isDir (pyAbspath (pyStrip rawPath)) = false →
     isFile (pyAbspath (pyStrip rawPath)) = false →
      msyncMain pathExists isDir isFile hostname destArg rawPath = (1, [])) := by
  refine ⟨?_, ?_, ?_⟩
  · intro h; simp [msyncMain, h]
  · intro h
    cases hr : pathExists RSYNC_EXE
    · simp [msyncMain, hr]
    · simp [msyncMain, hr, h]
  · intro h1 h2 h3 h4
    cases hr : pathExists RSYNC_EXE
    · simp [msyncMain, hr]
    · cases hs : pathExists SSH_EXE
      · simp [msyncMain, hr, hs]
      · simp [msyncMain, hr, hs, computeDest_error isDir isFile rawPath h1 h2 h3 h4]

/-- Witness for C9 (amended) at concrete inputs exercising each of the three
fatal conditions. -/
theorem startup_checks_witness :
    msyncMain (fun _ => false) (fun _ => true) (fun _ => true)
      ("h".data) ("d".data) ("/a".data) = (1, []) ∧
    msyncMain (fun q => decide (q = RSYNC_EXE)) (fun _ => true) (fun _ => true)
      ("h".data) ("d".data) ("/a".data) = (1, []) ∧
    msyncMain (fun _ => true) (fun _ => false) (fun _ => false)
      ("h".data) ("d".data) ("/nofile".data) = (1, []) :=
  ⟨(startup_checks (fun _ => false) (fun _ => true) (fun _ => true)
      ("h".data) ("d".data) ("/a".data)).1 rfl,
   (startup_checks (fun q => decide (q = RSYNC_EXE)) (fun _ => true) (fun _ => true)
      ("h".data) ("d".data) ("/a".data)).2.1 (by decide),
   (startup_checks (fun _ => true) (fun _ => false) (fun _ => false)
      ("h".data) ("d".data) ("/nofile".data)).2.2 (by decide) (by decide) rfl rfl⟩

/-- C10: when the stripped, absolutized source path ends in neither `/` nor
`/*` and is an existing regular file (not a directory), the computed
destination path is the source path itself. -/
theorem file_source_dest_eq_source (isDir isFile : List Char → Bool) (rawPath : List Char)
    (h1 : listEndsWith (pyAbspath (pyStrip rawPath)) ['/', '*'] = false)
    (h2 : listEndsWith (pyAbspath (pyStrip rawPath)) ['/'] = false)
    (h3 : isDir (pyAbspath (pyStrip rawPath)) = false)
    (h4 : isFile (pyAbspath (pyStrip rawPath)) = true) :
    computeDest isDir isFile rawPath
      = Except.ok (pyAbspath (pyStrip rawPath), pyAbspath (pyStrip rawPath)) := by
  simp [computeDest, h1, h2, h3, h4]

/-- Witness for C10 at the concrete file path `/a/b.txt`. -/
theorem file_source_dest_eq_source_witness :
    computeDest (fun _ => false) (fun p => decide (p = "/a/b.txt".data)) ("/a/b.txt".data)
      = Except.ok ("/a/b.txt".data, "/a/b.txt".data) :=
  file_source_dest_eq_source (fun _ => false) (fun p => decide (p = "/a/b.txt".data))
    ("/a/b.txt".data) (by decide) (by decide) rfl (by decide)

end Msync
